import Mathlib

/-!
Shallow embedding of `src/index.js` of `wait-for-netlify-action`.

The source is a GitHub-action orchestrator with three polling routines:

* `waitForDeployCreation` (lines 15-49): a `setInterval` loop with a
  15-second increment that fetches a deployment listing until a record
  whose `commit_ref` equals the target SHA appears, rejects with a
  not-found message when a fetch yields no collection, and rejects with a
  timeout message once the accumulated elapsed time reaches the budget.
* `waitForReadiness` (lines 51-80): a `setInterval` loop with a
  30-second increment that fetches a single deployment until its `state`
  is in `READY_STATES`, rejecting with a timeout message that echoes the
  last observed state (the JS `let state` starts out `undefined`, which a
  template literal renders as the word "undefined").
* `waitForUrl` (lines 82-110): a bounded retry loop (`MAX_TIMEOUT / 3`
  iterations in JS real division, i.e. `ceil(MAX_TIMEOUT/3)` for natural
  budgets) around a plain fetch, with a response interceptor that turns a
  401 failure into a success; with the single-attempt flag it rejects
  "not found" on the first failure, otherwise it sleeps 3 seconds between
  attempts and finally reports the timeout through `core.setFailed`
  without throwing.

`run` (lines 112-184) sequences the three and handles the
"canceled build due to no content change" error branch.

Effects are made explicit: each fetch is an entry of an environment
function from poll index to outcome, and `run` returns a trace of the
`core.setOutput` / `core.setFailed` / `core.notice` / `core.info` calls,
whether the readiness waiter was invoked, and which reachability probes
ran.  Promise settlement of the interval-based waiters is modelled both
as a direct recursive result function (fuel-indexed; the fuel used by the
wrappers is proven sufficient below) and, for the timer-resource
invariant, as a per-tick transition on an interval-session state that
records whether `clearInterval` has been called and keeps the first
settlement of the wrapping promise.
-/

namespace Netlify

/-- A Netlify deployment record, restricted to the fields the source
reads: `id`, `name`, `commit_ref`, `state`, `error_message`,
`deploy_ssl_url`. -/
structure Deploy where
  id : String
  name : String
  commit_ref : String
  state : String
  error_message : String
  deploy_ssl_url : String
deriving DecidableEq

/-- Settlement of the `waitForDeployCreation` promise: resolution with the
matched record, rejection with the no-collection message (line 34), or
rejection with the timeout message (lines 26-28). -/
inductive CreateResult where
  | resolved (d : Deploy)
  | rejectedNF (msg : String)
  | timeout (msg : String)
deriving DecidableEq

/-- Settlement of the `waitForReadiness` promise: resolution without a
payload or rejection with the timeout message (lines 63-65). -/
inductive ReadyResult where
  | resolved
  | timeout (msg : String)
deriving DecidableEq

/-- Outcome of one raw `axios.get` of a plain URL, before the response
interceptor runs: a fulfilled response or a failure, each carrying its
HTTP status (the interceptor reads `error.response.status`). -/
inductive FetchOutcome where
  | success (status : Nat)
  | failure (status : Nat)
deriving DecidableEq

/-- How one `waitForUrl` call ends: fulfilled, rejected with a message
(`"not found"`, single-attempt flag only), or returning normally after
reporting the timeout through `core.setFailed` (line 109). -/
inductive UrlResult where
  | success
  | rejected (msg : String)
  | softFailed (msg : String)
deriving DecidableEq

/-- One `waitForUrl` call together with its observable effort: how many
fetch attempts were issued and how many 3-second sleeps happened. -/
structure UrlRun where
  result : UrlResult
  attempts : Nat
  sleeps : Nat
deriving DecidableEq

/-- `READY_STATES` (line 5). -/
def READY_STATES : List String := ["ready", "current", "error"]

/-- The creation-timeout rejection message (lines 26-28). -/
def createTimeoutMsg (MAX_TIMEOUT : Nat) : String :=
  "Timeout reached: Deployment was not created within " ++ toString MAX_TIMEOUT ++ " seconds."

/-- The no-collection rejection message (line 34). -/
def deploysFetchFailMsg : String := "Failed to get deployments for site"

/-- The readiness-timeout rejection message (lines 63-65). -/
def readyTimeoutMsg (MAX_TIMEOUT : Nat) (lastState : String) : String :=
  "Timeout reached: Deployment was not ready within " ++ toString MAX_TIMEOUT ++
    " seconds. Last known deployment state: " ++ lastState ++ "."

/-- The reachability-timeout message passed to `core.setFailed` (line 109). -/
def urlTimeoutMsg (url : String) : String :=
  "Timeout reached: Unable to connect to " ++ url

/-- The body of `waitForDeployCreation`'s interval callback (lines 21-47)
as a recursive result function.  `tick` indexes the poll, `elapsed` is
`elapsedTimeSeconds` before the callback adds the 15-second increment;
`listings tick` is what the fetch of the listing endpoint yields at that
poll (`none` models a response whose `data` is not a collection).  The
first argument is fuel for the recursion; `waitForDeployCreation` below
passes `MAX_TIMEOUT + 1`, which `createLoop_isSome` proves sufficient. -/
def createLoop (listings : Nat → Option (List Deploy)) (commitSha : String)
    (MAX_TIMEOUT : Nat) : Nat → Nat → Nat → Option CreateResult
  | 0, _, _ => none
  | fuel + 1, tick, elapsed =>
    if MAX_TIMEOUT ≤ elapsed + 15 then
      some (.timeout (createTimeoutMsg MAX_TIMEOUT))
    else
      match listings tick with
      | none => some (.rejectedNF deploysFetchFailMsg)
      | some ds =>
        match ds.find? (fun d => d.commit_ref == commitSha) with
        | some d => some (.resolved d)
        | none => createLoop listings commitSha MAX_TIMEOUT fuel (tick + 1) (elapsed + 15)

/-- `waitForDeployCreation` (lines 15-49): the settlement of its promise.
The fuel `MAX_TIMEOUT + 1` always suffices (`createLoop_isSome`), so the
`getD` default is unreachable. -/
def waitForDeployCreation (listings : Nat → Option (List Deploy)) (commitSha : String)
    (MAX_TIMEOUT : Nat) : CreateResult :=
  (createLoop listings commitSha MAX_TIMEOUT (MAX_TIMEOUT + 1) 0 0).getD
    (.timeout (createTimeoutMsg MAX_TIMEOUT))

/-- The body of `waitForReadiness`'s interval callback (lines 58-78) as a
recursive result function.  `states tick` is the `state` field of the
deployment fetched at that poll; `lastState` carries the JS `state`
variable, initially the string rendering of `undefined`. -/
def readyLoop (states : Nat → String) (MAX_TIMEOUT : Nat) :
    Nat → Nat → Nat → String → Option ReadyResult
  | 0, _, _, _ => none
  | fuel + 1, tick, elapsed, lastState =>
    if MAX_TIMEOUT ≤ elapsed + 30 then
      some (.timeout (readyTimeoutMsg MAX_TIMEOUT lastState))
    else
      if READY_STATES.contains (states tick) then
        some .resolved
      else
        readyLoop states MAX_TIMEOUT fuel (tick + 1) (elapsed + 30) (states tick)

/-- `waitForReadiness` (lines 51-80): the settlement of its promise.  The
fuel `MAX_TIMEOUT + 1` always suffices (`readyLoop_isSome`), so the `getD`
default is unreachable. -/
def waitForReadiness (states : Nat → String) (MAX_TIMEOUT : Nat) : ReadyResult :=
  (readyLoop states MAX_TIMEOUT (MAX_TIMEOUT + 1) 0 0 "undefined").getD
    (.timeout (readyTimeoutMsg MAX_TIMEOUT "undefined"))

/-- The response interceptor installed by `waitForUrl` (lines 83-94): a
failure whose response status is 401 is converted into a fulfilled
response; every other outcome passes through unchanged. -/
def interceptResponse : FetchOutcome → FetchOutcome
  | .success st => .success st
  | .failure st => if st = 401 then .success st else .failure st

/-- The retry loop of `waitForUrl` (lines 97-109).  `remaining` counts the
loop iterations left, `i` is the attempt index, and `attempts`/`sleeps`
accumulate the effects.  Each attempt's raw outcome `outcomes i` is passed
through `interceptResponse` before the success/failure branch. -/
def urlLoop (url : String) (outcomes : Nat → FetchOutcome) (flag : Bool) :
    Nat → Nat → Nat → Nat → UrlRun
  | 0, _, attempts, sleeps => ⟨.softFailed (urlTimeoutMsg url), attempts, sleeps⟩
  | remaining + 1, i, attempts, sleeps =>
    match interceptResponse (outcomes i) with
    | .success _ => ⟨.success, attempts + 1, sleeps⟩
    | .failure _ =>
      if flag then
        ⟨.rejected "not found", attempts + 1, sleeps⟩
      else
        urlLoop url outcomes flag remaining (i + 1) (attempts + 1) (sleeps + 1)

/-- `waitForUrl` (lines 82-110).  The JS loop bound is `MAX_TIMEOUT / 3`
in real division with `i < iterations`, which for a natural budget runs
`ceil(MAX_TIMEOUT / 3) = (MAX_TIMEOUT + 2) / 3` iterations. -/
def waitForUrl (url : String) (outcomes : Nat → FetchOutcome) (MAX_TIMEOUT : Nat)
    (flag : Bool) : UrlRun :=
  urlLoop url outcomes flag ((MAX_TIMEOUT + 2) / 3) 0 0 0

/-- The poll session of `waitForDeployCreation` seen as a timer resource:
the `elapsedTimeSeconds` counter, the settlement of the wrapping promise
(a promise keeps its first settlement), and whether `clearInterval` has
been called on the handle. -/
structure CreateSession where
  elapsedTimeSeconds : Nat
  settled : Option CreateResult
  intervalCleared : Bool
deriving DecidableEq

/-- First settlement wins: a later `resolve`/`reject` on an already
settled promise is a no-op. -/
def settleFirst (s : Option CreateResult) (r : CreateResult) : Option CreateResult :=
  match s with
  | some r0 => some r0
  | none => some r

/-- One firing of `waitForDeployCreation`'s interval callback
(lines 21-47) as a transition on the session state.  A cleared interval
no longer fires, so the state is unchanged.  The timeout branch (line 25)
and the match branch (line 42) call `clearInterval`; the no-collection
reject (line 34) does not. -/
def createTick (listings : Nat → Option (List Deploy)) (commitSha : String)
    (MAX_TIMEOUT : Nat) (tick : Nat) (s : CreateSession) : CreateSession :=
  if s.intervalCleared then s
  else
    if MAX_TIMEOUT ≤ s.elapsedTimeSeconds + 15 then
      ⟨s.elapsedTimeSeconds + 15,
        settleFirst s.settled (.timeout (createTimeoutMsg MAX_TIMEOUT)), true⟩
    else
      match listings tick with
      | none =>
        ⟨s.elapsedTimeSeconds + 15,
          settleFirst s.settled (.rejectedNF deploysFetchFailMsg), s.intervalCleared⟩
      | some ds =>
        match ds.find? (fun d => d.commit_ref == commitSha) with
        | some d =>
          ⟨s.elapsedTimeSeconds + 15, settleFirst s.settled (.resolved d), true⟩
        | none => ⟨s.elapsedTimeSeconds + 15, s.settled, s.intervalCleared⟩

/-- The session after the first `n` firings of the interval callback,
starting from the state set up in lines 18-21. -/
def createTicks (listings : Nat → Option (List Deploy)) (commitSha : String)
    (MAX_TIMEOUT : Nat) : Nat → CreateSession
  | 0 => ⟨0, none, false⟩
  | n + 1 =>
    createTick listings commitSha MAX_TIMEOUT n
      (createTicks listings commitSha MAX_TIMEOUT n)

/-- The case-insensitive test of
`/canceled build due to no content change/i` (lines 148-149): whether the
lower-cased pattern occurs inside the lower-cased message. -/
def isSubstring (needle : List Char) : List Char → Bool
  | [] => needle.isEmpty
  | c :: rest => needle.isPrefixOf (c :: rest) || isSubstring needle rest

/-- `matcher.test(commitDeployment.error_message)` (lines 148-149). -/
def skipPhraseMatches (msg : String) : Bool :=
  isSubstring "canceled build due to no content change".data (msg.data.map Char.toLower)

/-- The external collaborators `run` consumes: the configuration inputs
(lines 114-122; `maxTimeoutInput = 0` models an empty or non-numeric
`max_timeout`, which `Number(...) || 60` replaces by 60, and an empty
`commitSha`/`siteId` models a missing value), the listing endpoint's
response per creation poll, the single-deployment endpoint's `state` per
readiness poll, and the outcome of the `i`-th plain fetch of a URL within
one `waitForUrl` call. -/
structure Env where
  tokenPresent : Bool
  commitSha : String
  siteId : String
  maxTimeoutInput : Nat
  listings : Nat → Option (List Deploy)
  deployStates : Nat → String
  urlFetch : String → Nat → FetchOutcome

/-- The observable effects of one `run`: every `core.setOutput` key/value
pair in order, every `core.setFailed` message in order, the
`core.notice` and `core.info` messages, the message that reached the
top-level catch (line 181) if any, whether `waitForReadiness` was
invoked, and each `waitForUrl` call as its target URL with the number of
fetch attempts it issued. -/
structure RunTrace where
  outputs : List (String × String)
  failed : List String
  notices : List String
  infos : List String
  caught : Option String
  readinessCalled : Bool
  probes : List (String × Nat)
deriving DecidableEq

/-- The `core.setFailed` calls of the configuration checks
(lines 124-134); execution continues past them, as in the source. -/
def configFailures (env : Env) : List String :=
  (if env.tokenPresent then []
   else ["Please set NETLIFY_TOKEN env variable to your Netlify Personal Access Token secret"]) ++
  (if env.commitSha = "" then ["Could not determine GitHub commit"] else []) ++
  (if env.siteId = "" then ["Required field `site_id` was not provided"] else [])

/-- Lines 168-180 of `run`: publish `deploy_id` and `url`, await
`waitForReadiness` (budget `60 * 15`), then await `waitForUrl` on the
computed URL with the configured ready budget.  A readiness timeout and a
(flag-less, hence impossible) prober rejection propagate to the top-level
catch; a prober soft failure only records its `setFailed` message. -/
def runAfterBranch (env : Env) (failed0 : List String) (d : Deploy) (url : String)
    (maxReadyTimeout : Nat) (probes0 : List (String × Nat)) : RunTrace :=
  let outs := [("deploy_id", d.id), ("url", url)]
  match waitForReadiness env.deployStates (60 * 15) with
  | .timeout msg => ⟨outs, failed0 ++ [msg], [], [], some msg, true, probes0⟩
  | .resolved =>
    let probe := waitForUrl url (env.urlFetch url) maxReadyTimeout false
    match probe.result with
    | .softFailed msg =>
      ⟨outs, failed0 ++ [msg], [], [], none, true, probes0 ++ [(url, probe.attempts)]⟩
    | .rejected msg =>
      ⟨outs, failed0 ++ [msg], [], [], some msg, true, probes0 ++ [(url, probe.attempts)]⟩
    | .success => ⟨outs, failed0, [], [], none, true, probes0 ++ [(url, probe.attempts)]⟩

/-- `run` (lines 112-184).  `MAX_CREATE_TIMEOUT = 60 * 5`; a creation
rejection reaches the top-level catch.  On a matched deployment in state
`"error"`: if the error message matches the skip phrase, the fallback
`deploy_ssl_url` is probed once (`waitForUrl(url, 3, true)`); a rejection
of that probe is caught locally (lines 155-162: notice, info,
`nopreview = 1`, return), while on success control falls through to
lines 168-180.  A non-matching error message is thrown and caught at the
top level with exactly `error.message` (lines 164, 181-183). -/
def run (env : Env) : RunTrace :=
  let maxReadyTimeout := if env.maxTimeoutInput = 0 then 60 else env.maxTimeoutInput
  match waitForDeployCreation env.listings env.commitSha (60 * 5) with
  | .timeout msg => ⟨[], configFailures env ++ [msg], [], [], some msg, false, []⟩
  | .rejectedNF msg => ⟨[], configFailures env ++ [msg], [], [], some msg, false, []⟩
  | .resolved d =>
    if d.state = "error" then
      if skipPhraseMatches d.error_message then
        let url := d.deploy_ssl_url
        let probe := waitForUrl url (env.urlFetch url) 3 true
        match probe.result with
        | .rejected _ =>
          ⟨[("nopreview", "1")], configFailures env,
            ["Skipping: no deployment available for this branch"],
            ["No deployment available: " ++ d.error_message],
            none, false, [(url, probe.attempts)]⟩
        | _ =>
          runAfterBranch env (configFailures env) d url maxReadyTimeout
            [(url, probe.attempts)]
      else
        ⟨[], configFailures env ++ [d.error_message], [], [],
          some d.error_message, false, []⟩
    else
      runAfterBranch env (configFailures env) d
        ("https://" ++ d.id ++ "--" ++ d.name ++ ".netlify.app") maxReadyTimeout []

/-- The skip-phrase scenario deployment: state `"error"` with the
no-content-change message. -/
def dNoChange : Deploy :=
  ⟨"dep1", "mysite", "abc123", "error",
    "Canceled build due to no content change", "https://prev.netlify.app"⟩

/-- A deployment in state `"error"` with an ordinary build failure
message. -/
def dBuildFail : Deploy :=
  ⟨"dep2", "mysite", "abc123", "error", "build script failed",
    "https://prev.netlify.app"⟩

/-- Environment for the skip scenario in which the fallback URL answers
the single probe successfully. -/
def envFallbackUp : Env :=
  ⟨true, "abc123", "site1", 0, fun _ => some [dNoChange], fun _ => "error",
    fun _ _ => .success 200⟩

/-- Environment for the skip scenario in which the fallback URL does not
answer (plain 404 failures everywhere). -/
def envFallbackDown : Env :=
  ⟨true, "abc123", "site1", 0, fun _ => some [dNoChange], fun _ => "error",
    fun _ _ => .failure 404⟩

/-- Environment in which the matched deployment failed with an ordinary
build error message. -/
def envBuildFail : Env :=
  ⟨true, "abc123", "site1", 0, fun _ => some [dBuildFail], fun _ => "error",
    fun _ _ => .failure 404⟩

/-- A listing endpoint whose every fetch yields no collection. -/
def noListings : Nat → Option (List Deploy) := fun _ => none

/-! ## Helper lemmas -/

/-- The fuel `waitForDeployCreation` passes to `createLoop` suffices: with
`MAX_TIMEOUT ≤ elapsed + 15 * fuel` and positive fuel, the loop settles. -/
theorem createLoop_isSome (listings : Nat → Option (List Deploy)) (sha : String)
    (maxT : Nat) :
    ∀ fuel tick elapsed, maxT ≤ elapsed + 15 * fuel → 0 < fuel →
      (createLoop listings sha maxT fuel tick elapsed).isSome = true := by
  intro fuel
  induction fuel with
  | zero => intro tick elapsed _ h; omega
  | succ f ih =>
    intro tick elapsed hle _
    rw [createLoop]
    by_cases ht : maxT ≤ elapsed + 15
    · simp [ht]
    · rw [if_neg ht]
      split
      · rfl
      · split
        · rfl
        · exact ih (tick + 1) (elapsed + 15) (by omega) (by omega)

/-- If the earliest poll whose listing contains a match happens strictly
before the budget is consumed, `createLoop` resolves with the first
matching record of that poll. -/
theorem createLoop_resolved (listings : Nat → Option (List Deploy)) (sha : String)
    (maxT k0 : Nat) (ds : List Deploy) (d : Deploy)
    (hk : 15 * (k0 + 1) < maxT) (hL : listings k0 = some ds)
    (hfind : ds.find? (fun x => x.commit_ref == sha) = some d) :
    ∀ fuel tick elapsed, elapsed = 15 * tick → tick ≤ k0 → k0 - tick < fuel →
      (∀ j, tick ≤ j → j < k0 →
        ∃ l, listings j = some l ∧ l.find? (fun x => x.commit_ref == sha) = none) →
      createLoop listings sha maxT fuel tick elapsed = some (.resolved d) := by
  intro fuel
  induction fuel with
  | zero => intro tick elapsed _ _ h _; omega
  | succ f ih =>
    intro tick elapsed he htk hfu hprev
    rw [createLoop]
    have hne : ¬ (maxT ≤ elapsed + 15) := by omega
    rw [if_neg hne]
    by_cases heq : tick = k0
    · subst heq
      simp only [hL, hfind]
    · have hlt : tick < k0 := lt_of_le_of_ne htk heq
      obtain ⟨l, hl, hln⟩ := hprev tick le_rfl hlt
      simp only [hl, hln]
      exact ih (tick + 1) (elapsed + 15) (by omega) (by omega) (by omega)
        (fun j hj1 hj2 => hprev j (by omega) hj2)

/-- If every poll that fetches (i.e. whose elapsed time stays under the
budget) yields a collection without a match, `createLoop` rejects with
the timeout message; the timeout check runs before the fetch, so nothing
is assumed about listings at or past the budget boundary. -/
theorem createLoop_timeout (listings : Nat → Option (List Deploy)) (sha : String)
    (maxT : Nat)
    (hall : ∀ j, 15 * (j + 1) < maxT →
      ∃ l, listings j = some l ∧ l.find? (fun x => x.commit_ref == sha) = none) :
    ∀ fuel tick elapsed, elapsed = 15 * tick → maxT ≤ elapsed + 15 * fuel → 0 < fuel →
      createLoop listings sha maxT fuel tick elapsed =
        some (.timeout (createTimeoutMsg maxT)) := by
  intro fuel
  induction fuel with
  | zero => intro tick elapsed _ _ h; omega
  | succ f ih =>
    intro tick elapsed he hle _
    rw [createLoop]
    by_cases ht : maxT ≤ elapsed + 15
    · rw [if_pos ht]
    · rw [if_neg ht]
      obtain ⟨l, hl, hln⟩ := hall tick (by omega)
      simp only [hl, hln]
      exact ih (tick + 1) (elapsed + 15) (by omega) (by omega) (by omega)

/-- A match in the very first listing resolves the creation waiter with
the first matching record, for any budget above one increment. -/
theorem waitForDeployCreation_first (listings : Nat → Option (List Deploy))
    (sha : String) (maxT : Nat) (ds : List Deploy) (d : Deploy)
    (hT : 15 < maxT) (hL : listings 0 = some ds)
    (hfind : ds.find? (fun x => x.commit_ref == sha) = some d) :
    waitForDeployCreation listings sha maxT = .resolved d := by
  have h := createLoop_resolved listings sha maxT 0 ds d (by omega) hL hfind
    (maxT + 1) 0 0 (by omega) le_rfl (by omega)
    (fun j _ hj => absurd hj (Nat.not_lt_zero j))
  rw [waitForDeployCreation, h]
  rfl

/-- The fuel `waitForReadiness` passes to `readyLoop` suffices. -/
theorem readyLoop_isSome (states : Nat → String) (maxT : Nat) :
    ∀ fuel tick elapsed lastState, maxT ≤ elapsed + 30 * fuel → 0 < fuel →
      (readyLoop states maxT fuel tick elapsed lastState).isSome = true := by
  intro fuel
  induction fuel with
  | zero => intro tick elapsed lastState _ h; omega
  | succ f ih =>
    intro tick elapsed lastState hle _
    rw [readyLoop]
    by_cases ht : maxT ≤ elapsed + 30
    · simp [ht]
    · rw [if_neg ht]
      by_cases hr : READY_STATES.contains (states tick) = true
      · rw [hr]
        rfl
      · simp only [Bool.not_eq_true] at hr
        simp only [hr, Bool.false_eq_true, if_false]
        exact ih (tick + 1) (elapsed + 30) (states tick) (by omega) (by omega)

/-- A tick whose incremented elapsed time reaches the budget rejects at
once with the timeout message built from the current `lastState`. -/
theorem readyLoop_timeout_now (states : Nat → String) (maxT : Nat)
    (fuel tick elapsed : Nat) (lastState : String) (he : maxT ≤ elapsed + 30) :
    readyLoop states maxT (fuel + 1) tick elapsed lastState =
      some (.timeout (readyTimeoutMsg maxT lastState)) := by
  rw [readyLoop, if_pos he]

/-- If the earliest ready poll happens strictly before the budget is
consumed, `readyLoop` resolves. -/
theorem readyLoop_resolved (states : Nat → String) (maxT k0 : Nat)
    (hk : 30 * (k0 + 1) < maxT) (hready : READY_STATES.contains (states k0) = true) :
    ∀ fuel tick elapsed lastState, elapsed = 30 * tick → tick ≤ k0 → k0 - tick < fuel →
      (∀ j, tick ≤ j → j < k0 → READY_STATES.contains (states j) = false) →
      readyLoop states maxT fuel tick elapsed lastState = some .resolved := by
  intro fuel
  induction fuel with
  | zero => intro tick elapsed lastState _ _ h _; omega
  | succ f ih =>
    intro tick elapsed lastState he htk hfu hprev
    rw [readyLoop]
    have hne : ¬ (maxT ≤ elapsed + 30) := by omega
    rw [if_neg hne]
    by_cases heq : tick = k0
    · subst heq
      rw [hready]
      rfl
    · have hlt : tick < k0 := lt_of_le_of_ne htk heq
      simp only [hprev tick le_rfl hlt, Bool.false_eq_true, if_false]
      exact ih (tick + 1) (elapsed + 30) (states tick) (by omega) (by omega) (by omega)
        (fun j hj1 hj2 => hprev j (by omega) hj2)

/-- If no poll that fetches before the budget is consumed observes a
ready state, `readyLoop` rejects with the timeout message built from the
state observed at the last fetching poll `K`. -/
theorem readyLoop_timeout_last (states : Nat → String) (maxT : Nat)
    (hall : ∀ j, 30 * (j + 1) < maxT → READY_STATES.contains (states j) = false) :
    ∀ fuel tick elapsed lastState K, elapsed = 30 * tick → tick ≤ K →
      30 * (K + 1) < maxT → maxT ≤ 30 * (K + 2) → K - tick + 1 < fuel →
      readyLoop states maxT fuel tick elapsed lastState =
        some (.timeout (readyTimeoutMsg maxT (states K))) := by
  intro fuel
  induction fuel with
  | zero => intro tick elapsed lastState K _ _ _ _ h; omega
  | succ f ih =>
    intro tick elapsed lastState K he htk hK1 hK2 hfu
    rw [readyLoop]
    have hne : ¬ (maxT ≤ elapsed + 30) := by omega
    rw [if_neg hne]
    simp only [hall tick (by omega), Bool.false_eq_true, if_false]
    by_cases heq : tick = K
    · subst heq
      obtain ⟨f', hf'⟩ : ∃ f', f = f' + 1 := ⟨f - 1, by omega⟩
      rw [hf']
      exact readyLoop_timeout_now states maxT f' (tick + 1) (elapsed + 30) (states tick)
        (by omega)
    · exact ih (tick + 1) (elapsed + 30) (states tick) K (by omega)
        (by omega) hK1 hK2 (by omega)

/-- `waitForReadiness` resolves when the earliest ready poll fits in the
budget. -/
theorem waitForReadiness_resolved (states : Nat → String) (maxT k0 : Nat)
    (hk : 30 * (k0 + 1) < maxT) (hready : READY_STATES.contains (states k0) = true)
    (hprev : ∀ j, j < k0 → READY_STATES.contains (states j) = false) :
    waitForReadiness states maxT = .resolved := by
  have h := readyLoop_resolved states maxT k0 hk hready (maxT + 1) 0 0 "undefined"
    (by omega) (by omega) (by omega) (fun j _ hj => hprev j hj)
  rw [waitForReadiness, h]
  rfl

/-- A budget of at most one increment rejects on the first tick, with the
word rendered for the never-assigned JS `state` variable. -/
theorem waitForReadiness_timeout_immediate (states : Nat → String) (maxT : Nat)
    (h : maxT ≤ 30) :
    waitForReadiness states maxT = .timeout (readyTimeoutMsg maxT "undefined") := by
  have h' := readyLoop_timeout_now states maxT maxT 0 0 "undefined" (by omega)
  rw [waitForReadiness, h']
  rfl

/-- With no ready state observed in budget and `K` the last fetching
poll, `waitForReadiness` rejects echoing the state observed at `K`. -/
theorem waitForReadiness_timeout_lastK (states : Nat → String) (maxT K : Nat)
    (hall : ∀ j, 30 * (j + 1) < maxT → READY_STATES.contains (states j) = false)
    (hK1 : 30 * (K + 1) < maxT) (hK2 : maxT ≤ 30 * (K + 2)) :
    waitForReadiness states maxT = .timeout (readyTimeoutMsg maxT (states K)) := by
  have h := readyLoop_timeout_last states maxT hall (maxT + 1) 0 0 "undefined" K
    (by omega) (by omega) hK1 hK2 (by omega)
  rw [waitForReadiness, h]
  rfl

/-- If every attempt of a flag-less `waitForUrl` run fails (after
interception), the loop consumes all its slots, sleeps between each, and
ends in the soft `setFailed` outcome. -/
theorem urlLoop_allFail (url : String) (outcomes : Nat → FetchOutcome) :
    ∀ r i attempts sleeps,
      (∀ j, i ≤ j → j < i + r → ∃ st, outcomes j = .failure st ∧ st ≠ 401) →
      urlLoop url outcomes false r i attempts sleeps =
        ⟨.softFailed (urlTimeoutMsg url), attempts + r, sleeps + r⟩ := by
  intro r
  induction r with
  | zero => intro i a s _; simp [urlLoop]
  | succ rr ih =>
    intro i a s hall
    obtain ⟨st, hst, hne⟩ := hall i le_rfl (by omega)
    rw [urlLoop, hst]
    simp only [interceptResponse, if_neg hne, Bool.false_eq_true, if_false]
    rw [ih (i + 1) (a + 1) (s + 1) (fun j hj1 hj2 => hall j (by omega) (by omega))]
    simp only [UrlRun.mk.injEq, true_and]
    exact ⟨by omega, by omega⟩

/-- With the single-attempt flag, a first failed (non-401) fetch makes
`waitForUrl` reject `"not found"` after exactly one attempt and no
sleep. -/
theorem waitForUrl_firstFailRejects (url : String) (outcomes : Nat → FetchOutcome)
    (maxT st : Nat) (hpos : 0 < maxT) (h0 : outcomes 0 = .failure st) (hne : st ≠ 401) :
    waitForUrl url outcomes maxT true = ⟨.rejected "not found", 1, 0⟩ := by
  obtain ⟨r, hr⟩ : ∃ r, (maxT + 2) / 3 = r + 1 := ⟨(maxT + 2) / 3 - 1, by omega⟩
  rw [waitForUrl, hr, urlLoop, h0]
  simp only [interceptResponse, if_neg hne]
  rfl

/-- A first fetch that succeeds after interception makes `waitForUrl`
fulfil after exactly one attempt. -/
theorem waitForUrl_firstSuccess (url : String) (outcomes : Nat → FetchOutcome)
    (maxT st : Nat) (flag : Bool) (hpos : 0 < maxT)
    (h0 : interceptResponse (outcomes 0) = .success st) :
    waitForUrl url outcomes maxT flag = ⟨.success, 1, 0⟩ := by
  obtain ⟨r, hr⟩ : ∃ r, (maxT + 2) / 3 = r + 1 := ⟨(maxT + 2) / 3 - 1, by omega⟩
  rw [waitForUrl, hr, urlLoop, h0]

/-! ## Claim theorems -/

/-- Claim C1 (refuting evidence): the creation waiter's no-collection
rejection exit does not cancel its repeating timer.  With every listing
fetch yielding no collection and a 300-second budget, the first tick
settles the wrapping promise with the `rejectedNF` rejection, yet
`clearInterval` has not been called, and the second tick still runs (the
elapsed counter advances from 15 to 30), contradicting the claim that the
timer is cancelled on every exit path. -/
theorem creation_notFound_timer_leak :
    (createTicks noListings "abc123" 300 1).settled =
      some (.rejectedNF deploysFetchFailMsg)
    ∧ (createTicks noListings "abc123" 300 1).intervalCleared = false
    ∧ (createTicks noListings "abc123" 300 2).elapsedTimeSeconds = 30 :=
  ⟨rfl, rfl, rfl⟩

/-- Claim C3: when the single-attempt flag is not set and all of the
`ceil(budget / 3)` fetch attempts fail (after interception), `waitForUrl`
ends in the soft outcome that reports the timeout message through
`core.setFailed` and returns normally — it is never the `rejected`
outcome, so it cannot reach the orchestrator's top-level catch (which in
`run` is entered only by `rejected`/`timeout` settlements). -/
theorem waitForUrl_timeout_soft (url : String) (outcomes : Nat → FetchOutcome)
    (MAX_TIMEOUT : Nat)
    (hall : ∀ i, i < (MAX_TIMEOUT + 2) / 3 →
      ∃ st, outcomes i = .failure st ∧ st ≠ 401) :
    waitForUrl url outcomes MAX_TIMEOUT false =
      ⟨.softFailed (urlTimeoutMsg url), (MAX_TIMEOUT + 2) / 3, (MAX_TIMEOUT + 2) / 3⟩
    ∧ ∀ msg, (waitForUrl url outcomes MAX_TIMEOUT false).result ≠ .rejected msg := by
  have h := urlLoop_allFail url outcomes ((MAX_TIMEOUT + 2) / 3) 0 0 0
    (fun j _ hj2 => hall j (by omega))
  rw [waitForUrl, h]
  refine ⟨by simp, fun msg => by simp⟩

/-- Witness for C3 at a concrete input: budget 6, two slots, both
failing with 500. -/
theorem waitForUrl_timeout_soft_witness :
    waitForUrl "https://x" (fun _ => .failure 500) 6 false =
      ⟨.softFailed (urlTimeoutMsg "https://x"), 2, 2⟩ :=
  (waitForUrl_timeout_soft "https://x" (fun _ => .failure 500) 6
    (fun i _ => ⟨500, rfl, by omega⟩)).1

/-- Claim C4: the creation waiter, polling at the fixed 15-second
increment: if the earliest poll whose listing contains a record matching
the target commit fits strictly within the budget, it resolves with
exactly that record (the first match of that listing); if no poll within
the budget has a match, it rejects with the timeout message stating the
budget and never resolves — and since the second part constrains only
polls strictly before the budget boundary, a match arriving at or past
the boundary is ignored: the timeout check runs before the fetch/match
check on each tick. -/
theorem waitForDeployCreation_spec (listings : Nat → Option (List Deploy))
    (commitSha : String) (MAX_TIMEOUT : Nat) :
    (∀ k0 ds d, 15 * (k0 + 1) < MAX_TIMEOUT → listings k0 = some ds →
      ds.find? (fun x => x.commit_ref == commitSha) = some d →
      (∀ j, j < k0 → ∃ l, listings j = some l ∧
        l.find? (fun x => x.commit_ref == commitSha) = none) →
      waitForDeployCreation listings commitSha MAX_TIMEOUT = .resolved d)
    ∧ ((∀ j, 15 * (j + 1) < MAX_TIMEOUT → ∃ l, listings j = some l ∧
        l.find? (fun x => x.commit_ref == commitSha) = none) →
      waitForDeployCreation listings commitSha MAX_TIMEOUT =
        .timeout (createTimeoutMsg MAX_TIMEOUT)) := by
  constructor
  · intro k0 ds d hk hL hfind hprev
    have h := createLoop_resolved listings commitSha MAX_TIMEOUT k0 ds d hk hL hfind
      (MAX_TIMEOUT + 1) 0 0 (by omega) (Nat.zero_le _) (by omega)
      (fun j _ hj => hprev j hj)
    rw [waitForDeployCreation, h]
    rfl
  · intro hall
    have h := createLoop_timeout listings commitSha MAX_TIMEOUT hall
      (MAX_TIMEOUT + 1) 0 0 (by omega) (by omega) (by omega)
    rw [waitForDeployCreation, h]
    rfl

/-- Witness for C4 at concrete inputs: a first-poll match resolves with
that record; an always-empty listing leads to the timeout rejection. -/
theorem waitForDeployCreation_spec_witness :
    waitForDeployCreation (fun _ => some [dNoChange]) "abc123" 300 = .resolved dNoChange
    ∧ waitForDeployCreation (fun _ => some []) "zzz" 40 =
        .timeout (createTimeoutMsg 40) := by
  constructor
  · exact (waitForDeployCreation_spec (fun _ => some [dNoChange]) "abc123" 300).1 0
      [dNoChange] dNoChange (by omega) rfl rfl
      (fun j hj => absurd hj (Nat.not_lt_zero j))
  · exact (waitForDeployCreation_spec (fun _ => some []) "zzz" 40).2
      (fun j _ => ⟨[], rfl, rfl⟩)

/-- Claim C5: the readiness waiter, polling at the fixed 30-second
increment, resolves (no payload) exactly when some poll strictly within
the budget observes a state in `READY_STATES = [ready, current, error]`;
otherwise it rejects with the timeout message carrying the last observed
state — the state fetched at the last poll `K` that ran before the
budget boundary, or the word "undefined" when the budget allows no poll
at all. -/
theorem waitForReadiness_spec (states : Nat → String) (MAX_TIMEOUT : Nat) :
    (waitForReadiness states MAX_TIMEOUT = .resolved ↔
      ∃ k, 30 * (k + 1) < MAX_TIMEOUT ∧ READY_STATES.contains (states k) = true)
    ∧ ((∀ j, 30 * (j + 1) < MAX_TIMEOUT → READY_STATES.contains (states j) = false) →
        (MAX_TIMEOUT ≤ 30 →
          waitForReadiness states MAX_TIMEOUT =
            .timeout (readyTimeoutMsg MAX_TIMEOUT "undefined"))
        ∧ (∀ K, 30 * (K + 1) < MAX_TIMEOUT → MAX_TIMEOUT ≤ 30 * (K + 2) →
          waitForReadiness states MAX_TIMEOUT =
            .timeout (readyTimeoutMsg MAX_TIMEOUT (states K)))) := by
  constructor
  · constructor
    · intro hres
      by_contra hex
      push_neg at hex
      simp only [Bool.not_eq_true] at hex
      rcases le_or_lt MAX_TIMEOUT 30 with hle | hgt
      · have ht := waitForReadiness_timeout_immediate states MAX_TIMEOUT hle
        rw [ht] at hres
        exact ReadyResult.noConfusion hres
      · have hK1 : 30 * ((MAX_TIMEOUT - 1) / 30 - 1 + 1) < MAX_TIMEOUT := by omega
        have hK2 : MAX_TIMEOUT ≤ 30 * ((MAX_TIMEOUT - 1) / 30 - 1 + 2) := by omega
        have ht := waitForReadiness_timeout_lastK states MAX_TIMEOUT
          ((MAX_TIMEOUT - 1) / 30 - 1) hex hK1 hK2
        rw [ht] at hres
        exact ReadyResult.noConfusion hres
    · rintro ⟨k, hk, hr⟩
      have hex : ∃ n, 30 * (n + 1) < MAX_TIMEOUT ∧
          READY_STATES.contains (states n) = true := ⟨k, hk, hr⟩
      have hspec := Nat.find_spec hex
      refine waitForReadiness_resolved states MAX_TIMEOUT (Nat.find hex)
        hspec.1 hspec.2 ?_
      intro j hj
      have hmin := Nat.find_min hex hj
      have hfound := hspec.1
      have hjlt : 30 * (j + 1) < MAX_TIMEOUT := by omega
      cases hcj : READY_STATES.contains (states j)
      · rfl
      · exact absurd ⟨hjlt, hcj⟩ hmin
  · intro hall
    exact ⟨fun hle => waitForReadiness_timeout_immediate states MAX_TIMEOUT hle,
      fun K hK1 hK2 => waitForReadiness_timeout_lastK states MAX_TIMEOUT K hall hK1 hK2⟩

/-- Witness for C5 at concrete inputs: a never-ready sequence with budget
45 rejects echoing the state of its single poll, and a first-poll ready
state with budget 90 resolves. -/
theorem waitForReadiness_spec_witness :
    waitForReadiness (fun _ => "building") 45 = .timeout (readyTimeoutMsg 45 "building")
    ∧ waitForReadiness (fun _ => "ready") 90 = .resolved := by
  constructor
  · exact ((waitForReadiness_spec (fun _ => "building") 45).2 (fun j _ => rfl)).2 0
      (by omega) (by omega)
  · exact (waitForReadiness_spec (fun _ => "ready") 90).1.mpr ⟨0, by omega, rfl⟩

/-- Claim C6: the response interceptor converts a fetch failure carrying
status 401 into a success before the prober's success/failure branch (so
the probe fulfils on such an attempt), passes successes through, and
leaves every other failure a failure. -/
theorem interceptResponse_authChallenge (st : Nat) (url : String)
    (outcomes : Nat → FetchOutcome) (MAX_TIMEOUT : Nat) (flag : Bool) :
    interceptResponse (.failure 401) = .success 401
    ∧ (st ≠ 401 → interceptResponse (.failure st) = .failure st)
    ∧ interceptResponse (.success st) = .success st
    ∧ (outcomes 0 = .failure 401 → 0 < MAX_TIMEOUT →
        waitForUrl url outcomes MAX_TIMEOUT flag = ⟨.success, 1, 0⟩) := by
  refine ⟨rfl, fun h => ?_, rfl, fun h0 hpos => ?_⟩
  · simp only [interceptResponse, if_neg h]
  · exact waitForUrl_firstSuccess url outcomes MAX_TIMEOUT 401 flag hpos
      (by rw [h0]; rfl)

/-- Witness for C6 at concrete inputs: a 500 failure passes through, and
a first-attempt 401 failure makes the probe succeed at once. -/
theorem interceptResponse_authChallenge_witness :
    interceptResponse (.failure 500) = .failure 500
    ∧ waitForUrl "https://x" (fun _ => .failure 401) 9 false = ⟨.success, 1, 0⟩ := by
  have h := interceptResponse_authChallenge 500 "https://x" (fun _ => .failure 401) 9 false
  exact ⟨h.2.1 (by omega), h.2.2.2 rfl (by omega)⟩

/-- Claim C7: with the single-attempt flag set, a first failed (non-401)
fetch makes `waitForUrl` reject `"not found"` after exactly one attempt,
with no sleep and no retry. -/
theorem waitForUrl_singleAttempt (url : String) (outcomes : Nat → FetchOutcome)
    (MAX_TIMEOUT st : Nat) (hpos : 0 < MAX_TIMEOUT)
    (h0 : outcomes 0 = .failure st) (hne : st ≠ 401) :
    waitForUrl url outcomes MAX_TIMEOUT true = ⟨.rejected "not found", 1, 0⟩ :=
  waitForUrl_firstFailRejects url outcomes MAX_TIMEOUT st hpos h0 hne

/-- Witness for C7 at a concrete input: budget 3 (the fallback probe's
budget) and a 404 failure. -/
theorem waitForUrl_singleAttempt_witness :
    waitForUrl "https://x" (fun _ => .failure 404) 3 true =
      ⟨.rejected "not found", 1, 0⟩ :=
  waitForUrl_singleAttempt "https://x" (fun _ => .failure 404) 3 404 (by omega) rfl
    (by omega)

/-- Claim C2 (refuting evidence): in the no-content-change fallback
branch with a fallback URL that answers its single probe, the
orchestrator does NOT finish there: control falls through past the
`try`/`catch`, `deploy_id`/`url` are published, the Readiness Waiter IS
invoked, and a second reachability probe runs — so the claim that the
Readiness Waiter is never invoked on this path fails on the code. -/
theorem run_fallbackSuccess_entersReadiness :
    (run envFallbackUp).readinessCalled = true
    ∧ (run envFallbackUp).outputs =
        [("deploy_id", "dep1"), ("url", "https://prev.netlify.app")]
    ∧ (run envFallbackUp).probes =
        [("https://prev.netlify.app", 1), ("https://prev.netlify.app", 1)] :=
  ⟨rfl, rfl, rfl⟩

/-- Claim C8: with the matched deployment in state `"error"`, its message
matching the skip phrase, and the fallback URL failing its single
(non-401) probe, the orchestrator publishes only `nopreview = 1`,
performed exactly one reachability probe (against the fallback URL),
never invoked the readiness waiter, and ends with no `setFailed` and
nothing reaching the top-level catch. -/
theorem run_skip_noPreview (env : Env) (ds : List Deploy) (d : Deploy) (st : Nat)
    (htok : env.tokenPresent = true) (hsha : ¬ env.commitSha = "")
    (hsite : ¬ env.siteId = "") (hL : env.listings 0 = some ds)
    (hfind : ds.find? (fun x => x.commit_ref == env.commitSha) = some d)
    (hstate : d.state = "error") (hskip : skipPhraseMatches d.error_message = true)
    (hfetch : env.urlFetch d.deploy_ssl_url 0 = .failure st) (hne : st ≠ 401) :
    run env = ⟨[("nopreview", "1")], [],
      ["Skipping: no deployment available for this branch"],
      ["No deployment available: " ++ d.error_message],
      none, false, [(d.deploy_ssl_url, 1)]⟩ := by
  have hcreate : waitForDeployCreation env.listings env.commitSha (60 * 5) =
      .resolved d :=
    waitForDeployCreation_first env.listings env.commitSha (60 * 5) ds d (by omega)
      hL hfind
  have hprobe : waitForUrl d.deploy_ssl_url (env.urlFetch d.deploy_ssl_url) 3 true =
      ⟨.rejected "not found", 1, 0⟩ :=
    waitForUrl_firstFailRejects d.deploy_ssl_url (env.urlFetch d.deploy_ssl_url) 3 st
      (by omega) hfetch hne
  have hconfig : configFailures env = [] := by
    simp [configFailures, htok, hsha, hsite]
  simp only [run, hcreate]
  rw [if_pos hstate, if_pos hskip]
  simp only [hprobe, hconfig]

/-- Witness for C8: the concrete skip scenario with an unreachable
fallback URL. -/
theorem run_skip_noPreview_witness :
    run envFallbackDown = ⟨[("nopreview", "1")], [],
      ["Skipping: no deployment available for this branch"],
      ["No deployment available: Canceled build due to no content change"],
      none, false, [("https://prev.netlify.app", 1)]⟩ :=
  run_skip_noPreview envFallbackDown [dNoChange] dNoChange 404 rfl (by decide)
    (by decide) rfl rfl rfl (by decide) rfl (by omega)

/-- Claim C9: with the matched deployment in state `"error"` and a
message that does not match the skip phrase, the orchestrator fails
fatally through the single top-level catch with exactly the deployment's
error message, publishes nothing, probes nothing, and never invokes the
readiness waiter. -/
theorem run_errorMessage_failure (env : Env) (ds : List Deploy) (d : Deploy)
    (htok : env.tokenPresent = true) (hsha : ¬ env.commitSha = "")
    (hsite : ¬ env.siteId = "") (hL : env.listings 0 = some ds)
    (hfind : ds.find? (fun x => x.commit_ref == env.commitSha) = some d)
    (hstate : d.state = "error")
    (hnoskip : skipPhraseMatches d.error_message = false) :
    run env = ⟨[], [d.error_message], [], [], some d.error_message, false, []⟩ := by
  have hcreate : waitForDeployCreation env.listings env.commitSha (60 * 5) =
      .resolved d :=
    waitForDeployCreation_first env.listings env.commitSha (60 * 5) ds d (by omega)
      hL hfind
  have hconfig : configFailures env = [] := by
    simp [configFailures, htok, hsha, hsite]
  simp only [run, hcreate]
  rw [if_pos hstate, if_neg (by simp [hnoskip])]
  simp only [hconfig]
  rfl

/-- Witness for C9: the concrete scenario with message
`"build script failed"`. -/
theorem run_errorMessage_failure_witness :
    run envBuildFail = ⟨[], ["build script failed"], [], [],
      some "build script failed", false, []⟩ :=
  run_errorMessage_failure envBuildFail [dBuildFail] dBuildFail rfl (by decide)
    (by decide) rfl rfl rfl (by decide)

/-- Every exit of `runAfterBranch` (lines 168-180) publishes exactly
`deploy_id` and `url` and has invoked the readiness waiter. -/
theorem runAfterBranch_outputs (env : Env) (failed0 : List String) (d : Deploy)
    (url : String) (mrt : Nat) (probes0 : List (String × Nat)) :
    (runAfterBranch env failed0 d url mrt probes0).outputs =
      [("deploy_id", d.id), ("url", url)]
    ∧ (runAfterBranch env failed0 d url mrt probes0).readinessCalled = true := by
  rw [runAfterBranch]
  cases hw : waitForReadiness env.deployStates (60 * 15) with
  | timeout msg => exact ⟨rfl, rfl⟩
  | resolved =>
    cases hp : (waitForUrl url (env.urlFetch url) mrt false).result with
    | success => simp [hp]
    | rejected msg => simp [hp]
    | softFailed msg => simp [hp]

/-- Claim C10: the `nopreview` output is published only on the no-preview
termination path, and on that path it is the only output — `deploy_id`
and `url` are not published there, the readiness waiter was never
invoked, and conversely any run that publishes `nopreview` has exactly
this output list. -/
theorem run_nopreview_exclusive (env : Env)
    (h : ∃ v, ("nopreview", v) ∈ (run env).outputs) :
    (run env).outputs = [("nopreview", "1")]
    ∧ (run env).readinessCalled = false := by
  obtain ⟨v, hv⟩ := h
  cases hc : waitForDeployCreation env.listings env.commitSha (60 * 5) with
  | timeout msg =>
    have hrun : run env =
        ⟨[], configFailures env ++ [msg], [], [], some msg, false, []⟩ := by
      simp only [run, hc]
    rw [hrun] at hv
    simp at hv
  | rejectedNF msg =>
    have hrun : run env =
        ⟨[], configFailures env ++ [msg], [], [], some msg, false, []⟩ := by
      simp only [run, hc]
    rw [hrun] at hv
    simp at hv
  | resolved d =>
    by_cases hs : d.state = "error"
    · by_cases hm : skipPhraseMatches d.error_message = true
      · cases hp : (waitForUrl d.deploy_ssl_url
            (env.urlFetch d.deploy_ssl_url) 3 true).result with
        | rejected msg =>
          have hrun : run env = ⟨[("nopreview", "1")], configFailures env,
              ["Skipping: no deployment available for this branch"],
              ["No deployment available: " ++ d.error_message], none, false,
              [(d.deploy_ssl_url, (waitForUrl d.deploy_ssl_url
                (env.urlFetch d.deploy_ssl_url) 3 true).attempts)]⟩ := by
            simp only [run, hc]
            rw [if_pos hs, if_pos hm]
            simp only [hp]
          rw [hrun]
          exact ⟨rfl, rfl⟩
        | success =>
          have hrun : run env = runAfterBranch env (configFailures env) d
              d.deploy_ssl_url (if env.maxTimeoutInput = 0 then 60 else env.maxTimeoutInput)
              [(d.deploy_ssl_url, (waitForUrl d.deploy_ssl_url
                (env.urlFetch d.deploy_ssl_url) 3 true).attempts)] := by
            simp only [run, hc]
            rw [if_pos hs, if_pos hm]
            simp only [hp]
          rw [hrun] at hv
          rw [(runAfterBranch_outputs env _ d _ _ _).1] at hv
          simp at hv
        | softFailed msg =>
          have hrun : run env = runAfterBranch env (configFailures env) d
              d.deploy_ssl_url (if env.maxTimeoutInput = 0 then 60 else env.maxTimeoutInput)
              [(d.deploy_ssl_url, (waitForUrl d.deploy_ssl_url
                (env.urlFetch d.deploy_ssl_url) 3 true).attempts)] := by
            simp only [run, hc]
            rw [if_pos hs, if_pos hm]
            simp only [hp]
          rw [hrun] at hv
          rw [(runAfterBranch_outputs env _ d _ _ _).1] at hv
          simp at hv
      · have hrun : run env = ⟨[], configFailures env ++ [d.error_message], [], [],
            some d.error_message, false, []⟩ := by
          simp only [run, hc]
          rw [if_pos hs, if_neg hm]
        rw [hrun] at hv
        simp at hv
    · have hrun : run env = runAfterBranch env (configFailures env) d
          ("https://" ++ d.id ++ "--" ++ d.name ++ ".netlify.app")
          (if env.maxTimeoutInput = 0 then 60 else env.maxTimeoutInput) [] := by
        simp only [run, hc]
        rw [if_neg hs]
      rw [hrun] at hv
      rw [(runAfterBranch_outputs env _ d _ _ _).1] at hv
      simp at hv

/-- Witness for C10: the concrete no-preview run publishes `nopreview`
and the theorem pins its outputs down to exactly that. -/
theorem run_nopreview_exclusive_witness :
    (run envFallbackDown).outputs = [("nopreview", "1")]
    ∧ (run envFallbackDown).readinessCalled = false :=
  run_nopreview_exclusive envFallbackDown ⟨"1", by decide⟩

end Netlify
